import Mathlib

/-!
A shallow embedding of `src/plexapi/audio.py` (the `Audio`, `Artist`, `Album`, `Track`,
`TrackSession` and `TrackHistory` classes) together with the external collaborators the
spec describes in §6, modelled from the spec where their sources are not part of the
repository slice under verification (`plexapi.utils`, `plexapi.base`).

Conventions of the embedding:
- An XML fragment's attribute set (`data.attrib`) is a map from attribute name to the
  raw string value, absent when the attribute is missing.
- A Python object's attribute state is one flat record (`Obj`); Python objects carry
  attributes dynamically, so the record is the union of every attribute assigned by any
  loader in the file, each left at its default until a loader assigns it.
- A `_loadData` method becomes a function `Attrib → Obj → Obj`.
- Methods that perform network access are reduced to the pure request value they hand to
  the external Fetch Layer (resource path, filters, sort, limit); raising `BadRequest`
  becomes returning `Except.error` with the exact message, and no request value exists
  on that path (the error is decided before any fetch).
-/

namespace PlexAudio

/-- An XML fragment's attribute map (`data.attrib`): attribute name to raw string. -/
def Attrib : Type := String → Option String

/-- Modelled from the spec: the digit part of the external integer coercion
(`utils.cast(int, ·)` lives in `plexapi.utils`, outside the verified sources).
A decimal digit's value, absent for any other character. -/
def digitVal (c : Char) : Option Nat :=
  if 48 ≤ c.toNat ∧ c.toNat ≤ 57 then some (c.toNat - 48) else none

/-- Modelled from the spec: decimal digits to a natural number, absent when empty or
when any character is not a digit. -/
def parseNatCore (cs : List Char) : Option Nat :=
  match cs with
  | [] => none
  | _ =>
    cs.foldl (fun acc c => acc.bind fun n => (digitVal c).map fun d => n * 10 + d) (some 0)

/-- Modelled from the spec: the external integer parse — an optional leading minus sign
followed by decimal digits; "tolerating missing/malformed input by yielding an absent
value rather than failing" (§2, Value Coercion). -/
def parseInt (s : String) : Option Int :=
  match s.data with
  | '-' :: rest => (parseNatCore rest).map fun n => -(n : Int)
  | cs => (parseNatCore cs).map fun n => (n : Int)

/-- Modelled from the spec: `utils.cast(int, ·)` — numeric cast with absent-on-failure
and absent-on-missing (§4.2). -/
def castInt (v : Option String) : Option Int := v.bind parseInt

/-- Modelled from the spec: `utils.cast(float, ·)` — no claim inspects a parsed float,
so the coerced value is represented by the raw text it was parsed from; absent input
stays absent. -/
def castFloat (v : Option String) : Option String := v

/-- Modelled from the spec: `utils.toDatetime` — timestamp parse with absent-on-missing;
the parsed timestamp is represented by its raw text, which no claim inspects. -/
def toDatetime (v : Option String) : Option String := v

/-- Modelled from the spec: `utils.toDatetime` with an explicit per-field format
(§4.2: "timestamp parse ... and an optional explicit format per field"). -/
def toDatetimeFmt (v : Option String) (_fmt : String) : Option String := v

/-- `utils.cast(int, data.attrib.get(name, 0))`: when the attribute is absent the Python
default is already the integer `0`, which the cast returns unchanged; when present the
raw string is parsed as usual. -/
def castIntZero (v : Option String) : Option Int :=
  match v with
  | some s => castInt (some s)
  | none => some 0

/-- The character list of the literal `"/children"` removed by the two
`self.key.replace('/children', '')` assignments (`FIX_BUG_50`). -/
def childrenPat : List Char := "/children".data

/-- Python `str.replace('/children', '')` on the character list: scan left to right,
removing each (non-overlapping) occurrence of the nine characters `/children`. -/
def stripChildren : List Char → List Char
  | '/' :: 'c' :: 'h' :: 'i' :: 'l' :: 'd' :: 'r' :: 'e' :: 'n' :: rest => stripChildren rest
  | c :: cs => c :: stripChildren cs
  | [] => []

/-- `key.replace('/children', '')` at the string level. -/
def replaceChildren (s : String) : String := ⟨stripChildren s.data⟩

/-- Whether `"/children"` occurs anywhere in the list (used to state what the
`replace` call does to keys with no occurrence). -/
def hasChildrenSub : List Char → Bool
  | [] => false
  | c :: cs => childrenPat.isPrefixOf (c :: cs) || hasChildrenSub cs

/-- Whether a string ends with the nine characters `/children`. -/
def endsWithChildren (s : String) : Bool :=
  decide (s.data.drop (s.data.length - childrenPat.length) = childrenPat)

/-- The attribute state of one loaded entity: the union of every attribute assigned by
the loaders of `plexapi/audio.py` plus the spec-modelled Playable / Session / History
capability fields.  String attributes default to absent; `key` and `listType` default
to the values Python would give them (`data.attrib.get('key', '')` and the hardcoded
`'audio'` are set by the loader itself). -/
structure Obj where
  addedAt : Option String := none
  art : Option String := none
  artBlurHash : Option String := none
  distance : Option String := none
  guid : Option String := none
  index : Option Int := none
  key : String := ""
  lastRatedAt : Option String := none
  lastViewedAt : Option String := none
  librarySectionID : Option Int := none
  librarySectionKey : Option String := none
  librarySectionTitle : Option String := none
  listType : String := ""
  musicAnalysisVersion : Option Int := none
  ratingKey : Option Int := none
  summary : Option String := none
  thumb : Option String := none
  thumbBlurHash : Option String := none
  title : Option String := none
  titleSort : Option String := none
  type : Option String := none
  updatedAt : Option String := none
  userRating : Option String := none
  viewCount : Option Int := none
  albumSort : Option Int := none
  audienceRating : Option String := none
  rating : Option String := none
  theme : Option String := none
  leafCount : Option Int := none
  loudnessAnalysisVersion : Option Int := none
  originallyAvailableAt : Option String := none
  parentGuid : Option String := none
  parentKey : Option String := none
  parentRatingKey : Option Int := none
  parentTheme : Option String := none
  parentThumb : Option String := none
  parentTitle : Option String := none
  studio : Option String := none
  viewedLeafCount : Option Int := none
  year : Option Int := none
  chapterSource : Option String := none
  duration : Option Int := none
  grandparentArt : Option String := none
  grandparentGuid : Option String := none
  grandparentKey : Option String := none
  grandparentRatingKey : Option Int := none
  grandparentTheme : Option String := none
  grandparentThumb : Option String := none
  grandparentTitle : Option String := none
  originalTitle : Option String := none
  parentIndex : Option Int := none
  primaryExtraKey : Option String := none
  ratingCount : Option Int := none
  skipCount : Option Int := none
  sourceURI : Option String := none
  viewOffset : Option Int := none
  playlistItemID : Option Int := none
  playQueueItemID : Option Int := none
  sessionKey : Option Int := none
  player : Option String := none
  viewedAt : Option String := none
  accountID : Option Int := none
deriving DecidableEq

/-- `Audio._loadData` (src/plexapi/audio.py lines 60–85), attribute for attribute.
`titleSort` reads `data.attrib.get('titleSort', self.title)` where `self.title` was
assigned `data.attrib.get('title')` on the previous line; `viewCount` reads
`utils.cast(int, data.attrib.get('viewCount', 0))`. -/
def Audio.loadData (data : Attrib) (o : Obj) : Obj :=
  { o with
    addedAt := toDatetime (data "addedAt")
    art := data "art"
    artBlurHash := data "artBlurHash"
    distance := castFloat (data "distance")
    guid := data "guid"
    index := castInt (data "index")
    key := (data "key").getD ""
    lastRatedAt := toDatetime (data "lastRatedAt")
    lastViewedAt := toDatetime (data "lastViewedAt")
    librarySectionID := castInt (data "librarySectionID")
    librarySectionKey := data "librarySectionKey"
    librarySectionTitle := data "librarySectionTitle"
    listType := "audio"
    musicAnalysisVersion := castInt (data "musicAnalysisVersion")
    ratingKey := castInt (data "ratingKey")
    summary := data "summary"
    thumb := data "thumb"
    thumbBlurHash := data "thumbBlurHash"
    title := data "title"
    titleSort :=
      match data "titleSort" with
      | some v => some v
      | none => data "title"
    type := data "type"
    updatedAt := toDatetime (data "updatedAt")
    userRating := castFloat (data "userRating")
    viewCount := castIntZero (data "viewCount") }

/-- `Artist._loadData` (src 211–218): runs the shared `Audio` loader first, then the
artist fields; the `key` line re-reads the key stored by the `Audio` layer and removes
`/children` from it (`self.key = self.key.replace('/children', '')`). -/
def Artist.loadData (data : Attrib) (o : Obj) : Obj :=
  let o := Audio.loadData data o
  { o with
    albumSort := castInt (some ((data "albumSort").getD "-1"))
    audienceRating := castFloat (data "audienceRating")
    key := replaceChildren o.key
    rating := castFloat (data "rating")
    theme := data "theme" }

/-- `Album._loadData` (src 389–406): the shared `Audio` loader first, then the album
fields, with the same `key` rewrite as `Artist`. -/
def Album.loadData (data : Attrib) (o : Obj) : Obj :=
  let o := Audio.loadData data o
  { o with
    audienceRating := castFloat (data "audienceRating")
    key := replaceChildren o.key
    leafCount := castInt (data "leafCount")
    loudnessAnalysisVersion := castInt (data "loudnessAnalysisVersion")
    originallyAvailableAt := toDatetimeFmt (data "originallyAvailableAt") "%Y-%m-%d"
    parentGuid := data "parentGuid"
    parentKey := data "parentKey"
    parentRatingKey := castInt (data "parentRatingKey")
    parentTheme := data "parentTheme"
    parentThumb := data "parentThumb"
    parentTitle := data "parentTitle"
    rating := castFloat (data "rating")
    studio := data "studio"
    viewedLeafCount := castInt (data "viewedLeafCount")
    year := castInt (data "year") }

/-- Modelled from the spec: `Playable._loadData` (`plexapi.base`, outside the verified
sources).  The spec describes Playable as a capability carrying stream/download related
state (§3); we model it as loading the play-queue and playlist item identifiers. -/
def Playable.loadData (data : Attrib) (o : Obj) : Obj :=
  { o with
    playlistItemID := castInt (data "playlistItemID")
    playQueueItemID := castInt (data "playQueueItemID") }

/-- The `Track`-specific assignments of `Track._loadData` (src 556–579), the block that
runs after the delegated `Audio` and `Playable` loaders.  `viewOffset` reads
`utils.cast(int, data.attrib.get('viewOffset', 0))`. -/
def Track.ownFields (data : Attrib) (o : Obj) : Obj :=
  { o with
    audienceRating := castFloat (data "audienceRating")
    chapterSource := data "chapterSource"
    duration := castInt (data "duration")
    grandparentArt := data "grandparentArt"
    grandparentGuid := data "grandparentGuid"
    grandparentKey := data "grandparentKey"
    grandparentRatingKey := castInt (data "grandparentRatingKey")
    grandparentTheme := data "grandparentTheme"
    grandparentThumb := data "grandparentThumb"
    grandparentTitle := data "grandparentTitle"
    originalTitle := data "originalTitle"
    parentGuid := data "parentGuid"
    parentIndex := castInt (data "parentIndex")
    parentKey := data "parentKey"
    parentRatingKey := castInt (data "parentRatingKey")
    parentThumb := data "parentThumb"
    parentTitle := data "parentTitle"
    primaryExtraKey := data "primaryExtraKey"
    rating := castFloat (data "rating")
    ratingCount := castInt (data "ratingCount")
    skipCount := castInt (data "skipCount")
    sourceURI := data "source"
    viewOffset := castIntZero (data "viewOffset")
    year := castInt (data "year") }

/-- `Track._loadData` (src 552–579): `Audio._loadData(self, data)`, then
`Playable._loadData(self, data)`, then the `Track`-specific fields. -/
def Track.loadData (data : Attrib) (o : Obj) : Obj :=
  Track.ownFields data (Playable.loadData data (Audio.loadData data o))

/-- Modelled from the spec: `PlexSession._loadData` (`plexapi.base`, outside the
verified sources).  §3: TrackSession merges "session-specific fields (player, session
id) on top of Track's fields". -/
def PlexSession.loadData (data : Attrib) (o : Obj) : Obj :=
  { o with
    sessionKey := castInt (data "sessionKey")
    player := data "player" }

/-- Modelled from the spec: `PlexHistory._loadData` (`plexapi.base`, outside the
verified sources).  §3: TrackHistory merges "history-specific fields (viewedAt,
account) on top of Track's fields". -/
def PlexHistory.loadData (data : Attrib) (o : Obj) : Obj :=
  { o with
    viewedAt := toDatetime (data "viewedAt")
    accountID := castInt (data "accountID") }

/-- `TrackSession._loadData` (src 670–673): `Track._loadData(self, data)` then
`PlexSession._loadData(self, data)`. -/
def TrackSession.loadData (data : Attrib) (o : Obj) : Obj :=
  PlexSession.loadData data (Track.loadData data o)

/-- `TrackHistory._loadData` (src 683–686): `Track._loadData(self, data)` then
`PlexHistory._loadData(self, data)`. -/
def TrackHistory.loadData (data : Attrib) (o : Obj) : Obj :=
  PlexHistory.loadData data (Track.loadData data o)

/-- A single-item lookup request handed to the external Fetch Layer by the track
lookups: the resource path fetched and the filter attached — either a case-insensitive
exact title match (`title__iexact`) or a parent-title match plus positional index
(`parentTitle__iexact=…, index=…`; the parent title is whatever value the caller
passes, possibly absent). -/
inductive TrackLookup
  | byTitle (path : String) (titleIexact : String)
  | byAlbumIndex (path : String) (parentTitleIexact : Option String) (index : Int)
deriving DecidableEq

/-- `Artist.track` (src 280–296), reduced to the lookup request it hands to
`fetchItem` or the `BadRequest` message it raises; the error path produces no lookup
request at all, which models "raised before any network access". -/
def Artist.track (o : Obj) (title album : Option String) (track : Option Int) :
    Except String TrackLookup :=
  let key := o.key ++ "/allLeaves"
  match title with
  | some t => .ok (.byTitle key t)
  | none =>
    match album, track with
    | some a, some n => .ok (.byAlbumIndex key (some a) n)
    | _, _ => .error "Missing argument: title or album and track are required"

/-- `Artist.get` (src 303–305): alias of `Artist.track`, forwarding all three
arguments. -/
def Artist.get (o : Obj) (title album : Option String) (track : Option Int) :
    Except String TrackLookup :=
  Artist.track o title album track

/-- The runtime type of the `title` argument of `Album.track`: Python dispatches with
`isinstance(title, int)`, so the argument is a string or an integer (or absent). -/
inductive TitleArg
  | str (s : String)
  | int (n : Int)
deriving DecidableEq

/-- `Album.track` (src 444–463): `if title is not None and not isinstance(title, int)`
fetches by case-insensitive title; `elif track is not None or isinstance(title, int)`
fetches by index (an integer `title` is the index, otherwise `track` is) filtered by a
case-insensitive match of the album's own title; otherwise `BadRequest`. -/
def Album.track (o : Obj) (title : Option TitleArg) (track : Option Int) :
    Except String TrackLookup :=
  let key := o.key ++ "/children"
  match title, track with
  | some (.str t), _ => .ok (.byTitle key t)
  | some (.int n), _ => .ok (.byAlbumIndex key o.title n)
  | none, some n => .ok (.byAlbumIndex key o.title n)
  | none, none => .error "Missing argument: title or track is required"

/-- `Album.get` (src 470–472): alias of `Album.track`. -/
def Album.get (o : Obj) (title : Option TitleArg) (track : Option Int) :
    Except String TrackLookup :=
  Album.track o title track

/-- Modelled from the spec: `utils.joinArgs` (`plexapi.utils`, outside the verified
sources) — §6: parameters are serialized as `?k1=v1&k2=v2` "present only if supplied,
in that order", and nothing is appended when no parameter is present.  (The real
helper also URL-quotes values and orders keys case-insensitively; for the `limit` /
`maxDistance` pair that ordering coincides with the insertion order modelled here and
the values need no quoting.) -/
def joinArgs (params : List (String × String)) : String :=
  match params with
  | [] => ""
  | _ => "?" ++ String.intercalate "&" (params.map fun p => p.1 ++ "=" ++ p.2)

/-- `Audio.sonicallySimilar` (src 148–177), reduced to the request path it fetches:
`<self.key>/nearest` plus the serialized parameter dict, into which `limit` and then
`maxDistance` are inserted only when supplied.  The `maxDistance` float is represented
by its rendered decimal text (its `str(·)` image), which is what the query string
carries. -/
def sonicallySimilarPath (o : Obj) (limit : Option Int) (maxDistance : Option String) :
    String :=
  let key := o.key ++ "/nearest"
  let params : List (String × String) :=
    (match limit with | some n => [("limit", toString n)] | none => [])
      ++ (match maxDistance with | some f => [("maxDistance", f)] | none => [])
  key ++ joinArgs params

/-- A filter value in a section search: Python passes raw strings, integers, or (for a
missing attribute) `None`. -/
inductive FilterVal
  | str (s : String)
  | int (n : Int)
  | absent
deriving DecidableEq

/-- A section-scoped search request (`self.section().search(...)`): the library type
searched, the filter dict in insertion order, the sort directive, and the result cap. -/
structure SearchRequest where
  libtype : String
  filters : List (String × FilterVal)
  sort : Option String
  limit : Option Nat
deriving DecidableEq

/-- The filter value for an attribute Python passes as-is (an integer when loaded,
`None` when the attribute is absent). -/
def FilterVal.ofOptInt (v : Option Int) : FilterVal :=
  match v with
  | some n => .int n
  | none => .absent

/-- `Artist.popularTracks` (src 323–336): the single search request it issues — the
filter dict in source order, `sort='ratingCount:desc'` and `limit=100`. -/
def Artist.popularTracks (o : Obj) : SearchRequest :=
  { libtype := "track"
    filters := [("album.subformat!", .str "Compilation,Live"),
                ("artist.id", FilterVal.ofOptInt o.ratingKey),
                ("group", .str "title"),
                ("ratingCount>>", .int 0)]
    sort := some "ratingCount:desc"
    limit := some 100 }

/-! ### SHA-1, for `utils.sha1hash`

`utils.sha1hash` lives in `plexapi.utils`, outside the verified sources; its name and
the spec's "apply a content hash" (§6) identify it as the SHA-1 hex digest of the
guid's UTF-8 bytes.  The implementation below is standard SHA-1 over `Nat` words
reduced modulo `2^32`; two published test vectors are proved further down. -/

/-- The 32-bit word modulus of SHA-1 arithmetic. -/
def w32 : Nat := 4294967296

/-- Left rotation of a 32-bit word by `n` places. -/
def rotl (n x : Nat) : Nat := ((x <<< n) ||| (x >>> (32 - n))) % w32

/-- Big-endian bytes of a number, fixed width `n`. -/
def beBytes (n v : Nat) : List Nat :=
  match n with
  | 0 => []
  | m + 1 => beBytes m (v / 256) ++ [v % 256]

/-- SHA-1 message padding: the byte `0x80`, zero bytes up to 56 mod 64, then the bit
length as eight big-endian bytes. -/
def sha1pad (msg : List Nat) : List Nat :=
  let len := msg.length
  let zeros := (64 - (len + 9) % 64) % 64
  msg ++ [128] ++ List.replicate zeros 0 ++ beBytes 8 (8 * len)

/-- Big-endian 32-bit words of consecutive 4-byte groups. -/
def toWords : List Nat → List Nat
  | b0 :: b1 :: b2 :: b3 :: rest =>
    (((b0 * 256 + b1) * 256 + b2) * 256 + b3) :: toWords rest
  | _ => []

/-- The SHA-1 round function for round `t`. -/
def sha1f (t b c d : Nat) : Nat :=
  if t < 20 then (b &&& c) ||| ((b ^^^ 4294967295) &&& d)
  else if t < 40 then b ^^^ c ^^^ d
  else if t < 60 then (b &&& c) ||| (b &&& d) ||| (c &&& d)
  else b ^^^ c ^^^ d

/-- The SHA-1 round constant for round `t`. -/
def sha1k (t : Nat) : Nat :=
  if t < 20 then 1518500249
  else if t < 40 then 1859775393
  else if t < 60 then 2400959708
  else 3395469782

/-- The 80 SHA-1 rounds, with the message schedule kept as a sliding 16-word window:
the head of `win` is the current round's schedule word, and the word sixteen rounds
ahead is the rotation of the words at window positions 13, 8, 2 and 0. -/
def sha1rounds : Nat → List Nat → Nat × Nat × Nat × Nat × Nat →
    Nat × Nat × Nat × Nat × Nat
  | 0, _, st => st
  | n + 1, win, (a, b, c, d, e) =>
    let t := 80 - (n + 1)
    let wt := win.headD 0
    let nextw := rotl 1 (((win.getD 13 0) ^^^ (win.getD 8 0)) ^^^
      ((win.getD 2 0) ^^^ (win.getD 0 0)))
    let tmp := (rotl 5 a + sha1f t b c d + e + sha1k t + wt) % w32
    sha1rounds n (win.tail ++ [nextw]) (tmp, a, rotl 30 b, c, d)

/-- One SHA-1 compression: run the 80 rounds on a 16-word block and add the result to
the chaining state, modulo `2^32`. -/
def sha1compress (block : List Nat) (h : Nat × Nat × Nat × Nat × Nat) :
    Nat × Nat × Nat × Nat × Nat :=
  match h with
  | (h0, h1, h2, h3, h4) =>
    match sha1rounds 80 block (h0, h1, h2, h3, h4) with
    | (a, b, c, d, e) =>
      ((h0 + a) % w32, (h1 + b) % w32, (h2 + c) % w32, (h3 + d) % w32, (h4 + e) % w32)

/-- Fold the compression over the 16-word blocks of the padded message (padding
guarantees a multiple of sixteen words; a ragged tail would be dropped). -/
def sha1blocks : List Nat → Nat × Nat × Nat × Nat × Nat → Nat × Nat × Nat × Nat × Nat
  | w0 :: w1 :: w2 :: w3 :: w4 :: w5 :: w6 :: w7 ::
      w8 :: w9 :: w10 :: w11 :: w12 :: w13 :: w14 :: w15 :: rest, h =>
    sha1blocks rest
      (sha1compress [w0, w1, w2, w3, w4, w5, w6, w7, w8, w9, w10, w11, w12, w13, w14, w15] h)
  | _, h => h

/-- A hex digit character (lowercase). -/
def hexDigit (n : Nat) : Char :=
  if n < 10 then Char.ofNat (48 + n) else Char.ofNat (87 + n)

/-- The eight lowercase hex digits of a 32-bit word, most significant first. -/
def hex8 (x : Nat) : List Char :=
  (List.range 8).map fun i => hexDigit (x / 16 ^ (7 - i) % 16)

/-- Modelled from the spec: `utils.sha1hash` (`plexapi.utils`, outside the verified
sources) — the "content hash" applied to a guid (§6): the lowercase hex SHA-1 digest
of the guid's UTF-8 bytes.  Guids are ASCII, so the code points are the bytes. -/
def sha1hash (guid : String) : String :=
  let msg := guid.data.map Char.toNat
  let ws := toWords (sha1pad msg)
  match sha1blocks ws (1732584193, 4023233417, 2562383102, 271733878, 3285377520) with
  | (h0, h1, h2, h3, h4) =>
    ⟨hex8 h0 ++ hex8 h1 ++ hex8 h2 ++ hex8 h3 ++ hex8 h4⟩

/-- Python's `guid_hash[0]` on the hex digest: the first character. -/
def hashHead (s : String) : String := ⟨s.data.take 1⟩

/-- Python's `guid_hash[1:]` on the hex digest: everything after the first character. -/
def hashTail (s : String) : String := ⟨s.data.drop 1⟩

/-- `Artist.metadataDirectory` (src 343–347):
`Path('Metadata') / 'Artists' / guid_hash[0] / f'{guid_hash[1:]}.bundle'` rendered as
a POSIX path, hashing the artist's own guid; absent when the guid is absent (the
Python hash call requires a string). -/
def Artist.metadataDirectory (o : Obj) : Option String :=
  o.guid.map fun g =>
    let h := sha1hash g
    "Metadata" ++ "/" ++ "Artists" ++ "/" ++ hashHead h ++ "/" ++ hashTail h ++ ".bundle"

/-- `Album.metadataDirectory` (src 496–500): the same path under `Albums`, hashing the
album's own guid. -/
def Album.metadataDirectory (o : Obj) : Option String :=
  o.guid.map fun g =>
    let h := sha1hash g
    "Metadata" ++ "/" ++ "Albums" ++ "/" ++ hashHead h ++ "/" ++ hashTail h ++ ".bundle"

/-- `Track.metadataDirectory` (src 640–644): the `Albums` path, hashing
`self.parentGuid` — the guid of the track's album, not the track's own guid. -/
def Track.metadataDirectory (o : Obj) : Option String :=
  o.parentGuid.map fun g =>
    let h := sha1hash g
    "Metadata" ++ "/" ++ "Albums" ++ "/" ++ hashHead h ++ "/" ++ hashTail h ++ ".bundle"

/-! ## Theorems -/

set_option maxRecDepth 100000

/-- Any list starting with the nine characters `/children` has an occurrence. -/
theorem hasChildrenSub_pat (rest : List Char) :
    hasChildrenSub ('/' :: 'c' :: 'h' :: 'i' :: 'l' :: 'd' :: 'r' :: 'e' :: 'n' :: rest)
      = true := by
  have h : childrenPat.isPrefixOf
      ('/' :: 'c' :: 'h' :: 'i' :: 'l' :: 'd' :: 'r' :: 'e' :: 'n' :: rest) = true :=
    List.isPrefixOf_iff_prefix.mpr ⟨rest, rfl⟩
  simp [hasChildrenSub, h]

/-- A list with no occurrence of `/children` is left unchanged by the replace. -/
theorem stripChildren_no_sub :
    ∀ (l : List Char), hasChildrenSub l = false → stripChildren l = l := by
  intro l
  induction l using stripChildren.induct with
  | case1 rest ih =>
    intro h
    rw [hasChildrenSub_pat] at h
    exact absurd h (by simp)
  | case2 c cs hside ih =>
    intro h
    simp only [hasChildrenSub, Bool.or_eq_false_iff] at h
    rw [stripChildren.eq_2 c cs hside]
    rw [ih h.2]
  | case3 =>
    intro _
    rfl

/-- Appending `/children` to a list with no occurrence of it and then replacing strips
exactly that trailing occurrence. -/
theorem stripChildren_append_pat :
    ∀ (b : List Char), hasChildrenSub b = false → stripChildren (b ++ childrenPat) = b := by
  intro b
  induction b using stripChildren.induct with
  | case1 rest ih =>
    intro h
    rw [hasChildrenSub_pat] at h
    exact absurd h (by simp)
  | case3 =>
    intro _
    decide
  | case2 c cs hside ih =>
    intro h
    simp only [hasChildrenSub, Bool.or_eq_false_iff] at h
    obtain ⟨hpre, hsub⟩ := h
    rw [List.cons_append]
    rw [stripChildren.eq_2 c (cs ++ childrenPat) ?side]
    · rw [ih hsub]
    case side =>
      intro rest hc hcs
      by_cases hlen : 8 ≤ cs.length
      · have htake : cs.take 8 = ['c', 'h', 'i', 'l', 'd', 'r', 'e', 'n'] := by
          have h1 := congrArg (List.take 8) hcs
          rw [List.take_append_eq_append_take] at h1
          have h2 : 8 - cs.length = 0 := by omega
          rw [h2] at h1
          simpa using h1
        have hcseq : c :: cs = childrenPat ++ cs.drop 8 := by
          subst hc
          have hta := List.take_append_drop 8 cs
          rw [htake] at hta
          rw [← hta]
          rfl
        have hp : childrenPat.isPrefixOf (c :: cs) = true :=
          List.isPrefixOf_iff_prefix.mpr ⟨cs.drop 8, hcseq.symm⟩
        rw [hp] at hpre
        exact absurd hpre (by simp)
      · have hidx : (cs ++ childrenPat)[cs.length]? = some '/' := by
          rw [List.getElem?_append_right (le_refl _)]
          simp [childrenPat]
        rw [hcs] at hidx
        have hk7 : cs.length ≤ 7 := by omega
        set k := cs.length with hk
        clear_value k
        interval_cases k <;> simp at hidx

/-- String-level: no occurrence of `/children`, replace is the identity. -/
theorem replaceChildren_no_sub (s : String) (h : hasChildrenSub s.data = false) :
    replaceChildren s = s := by
  cases s with
  | mk l => exact congrArg String.mk (stripChildren_no_sub l h)

/-- String-level: the replace strips a single trailing `/children` suffix. -/
theorem replaceChildren_append_children (s : String) (h : hasChildrenSub s.data = false) :
    replaceChildren (s ++ "/children") = s := by
  cases s with
  | mk l => exact congrArg String.mk (stripChildren_append_pat l h)

/-- SHA-1 known-answer test, FIPS 180 vector: the digest of `"abc"`. -/
theorem sha1hash_vector_abc :
    sha1hash "abc" = "a9993e364706816aba3e25717850c26c9cd0d89d" := by decide

/-- SHA-1 known-answer test: the digest of the empty message. -/
theorem sha1hash_vector_empty :
    sha1hash "" = "da39a3ee5e6b4b0d3255bfef95601890afd80709" := by decide

/-- Query serialization of a lone `limit` parameter. -/
theorem joinArgs_limit (t : String) : joinArgs [("limit", t)] = "?limit=" ++ t := by
  show "?" ++ ("limit" ++ "=" ++ t) = "?limit=" ++ t
  rw [← String.append_assoc, ← String.append_assoc]
  rfl

/-- Query serialization of a lone `maxDistance` parameter. -/
theorem joinArgs_maxDistance (t : String) :
    joinArgs [("maxDistance", t)] = "?maxDistance=" ++ t := by
  show "?" ++ ("maxDistance" ++ "=" ++ t) = "?maxDistance=" ++ t
  rw [← String.append_assoc, ← String.append_assoc]
  rfl

/-- Query serialization of `limit` followed by `maxDistance`. -/
theorem joinArgs_limit_maxDistance (t f : String) :
    joinArgs [("limit", t), ("maxDistance", f)] = "?limit=" ++ t ++ "&maxDistance=" ++ f := by
  show "?" ++ ("limit" ++ "=" ++ t ++ "&" ++ ("maxDistance" ++ "=" ++ f))
      = "?limit=" ++ t ++ "&maxDistance=" ++ f
  simp only [← String.append_assoc]
  rw [show ("?" ++ "limit" ++ "=" : String) = "?limit=" from rfl]
  simp only [String.append_assoc]
  rw [show ("&" ++ ("maxDistance" ++ ("=" ++ f)) : String) = "&maxDistance=" ++ f by
    simp only [← String.append_assoc]; rfl]

/-- C1, counterexample: a `key` attribute that does **not** end in `/children` is not
stored unchanged — `Artist._loadData` removes the mid-string occurrence too, because
Python `str.replace` removes every occurrence, not only a trailing suffix. -/
theorem c1_key_children_counterexample :
    (Artist.loadData
        (fun a => if a = "key" then some "/children/library/metadata/1" else none)
        {}).key = "/library/metadata/1"
      ∧ endsWithChildren "/children/library/metadata/1" = false
      ∧ "/library/metadata/1" ≠ "/children/library/metadata/1" := by
  refine ⟨by decide, by decide, by decide⟩

/-- C1, amended: after `Artist._loadData` / `Album._loadData` the stored `key` is the
fragment's `key` attribute with **every** occurrence of `/children` removed (Python
`str.replace` semantics); in particular a key whose only occurrence is a trailing
`/children` suffix has exactly that suffix stripped, and a key with no occurrence is
stored unchanged. -/
theorem c1_key_children_replace_all :
    ∀ (d : Attrib) (o : Obj) (s : String),
      (Artist.loadData d o).key = replaceChildren ((d "key").getD "")
      ∧ (Album.loadData d o).key = replaceChildren ((d "key").getD "")
      ∧ (hasChildrenSub s.data = false →
          replaceChildren s = s ∧ replaceChildren (s ++ "/children") = s) := by
  intro d o s
  exact ⟨rfl, rfl, fun h =>
    ⟨replaceChildren_no_sub s h, replaceChildren_append_children s h⟩⟩

/-- C1 witness: the spec's own scenario, `/library/metadata/1/children` loads as
`/library/metadata/1`. -/
theorem c1_key_children_witness :
    hasChildrenSub ("/library/metadata/1" : String).data = false
      ∧ replaceChildren "/library/metadata/1" = "/library/metadata/1"
      ∧ replaceChildren ("/library/metadata/1" ++ "/children") = "/library/metadata/1" := by
  have h := (c1_key_children_replace_all (fun _ => none) {} "/library/metadata/1").2.2
    (by decide)
  exact ⟨by decide, h.1, h.2⟩

/-- C2, counterexample: a positional index **without** an album title raises
`BadRequest` in `Artist.track`, contrary to the claim that an index with or without an
album performs a lookup. -/
theorem c2_index_without_album_counterexample :
    Artist.track { key := "/library/metadata/1" } none none (some 3)
      = .error "Missing argument: title or album and track are required" := rfl

/-- C2, amended: `Artist.track` (and its alias `Artist.get`) requires a title, or an
album title **and** a positional index together; supplying neither — including an
index alone — returns the `BadRequest` error, and on that path no lookup request is
built at all (the error precedes any network access).  A title alone, or album plus
index, builds the lookup. -/
theorem c2_track_argument_check :
    ∀ (o : Obj) (title album : Option String) (track : Option Int),
      Artist.get o title album track = Artist.track o title album track
      ∧ ((∃ e, Artist.track o title album track = .error e)
          ↔ title = none ∧ (album = none ∨ track = none))
      ∧ (∀ t, title = some t →
          Artist.track o title album track = .ok (.byTitle (o.key ++ "/allLeaves") t))
      ∧ (∀ a n, title = none → album = some a → track = some n →
          Artist.track o title album track
            = .ok (.byAlbumIndex (o.key ++ "/allLeaves") (some a) n)) := by
  intro o title album track
  refine ⟨rfl, ?_, ?_, ?_⟩
  · cases title <;> cases album <;> cases track <;> simp [Artist.track]
  · intro t ht
    subst ht
    rfl
  · intro a n h1 h2 h3
    subst h1
    subst h2
    subst h3
    rfl

/-- C2 witness: the spec's scenarios — `track(title="Lucky")` and
`track(album="We Sing", track=3)` both build lookups without error. -/
theorem c2_track_argument_check_witness :
    Artist.track { key := "/library/metadata/1" } (some "Lucky") none none
        = .ok (.byTitle "/library/metadata/1/allLeaves" "Lucky")
      ∧ Artist.track { key := "/library/metadata/1" } none (some "We Sing") (some 3)
        = .ok (.byAlbumIndex "/library/metadata/1/allLeaves" (some "We Sing") 3) := by
  constructor
  · rw [(c2_track_argument_check { key := "/library/metadata/1" } (some "Lucky") none
      none).2.2.1 "Lucky" rfl]
    rfl
  · rw [(c2_track_argument_check { key := "/library/metadata/1" } none (some "We Sing")
      (some 3)).2.2.2 "We Sing" 3 rfl rfl rfl]
    rfl

/-- C3: `metadataDirectory` hashes the guid and formats
`Metadata/<Kind>/<firstHashChar>/<remainingHashChars>.bundle`, with kind `Artists` for
an artist, `Albums` for an album and for a track; a track hashes its album's guid
(`parentGuid`), so its bundle path agrees with its album's and is independent of the
track's own `guid`. -/
theorem c3_metadataDirectory_kind :
    ∀ (a al t : Obj) (g : String),
      (a.guid = some g → Artist.metadataDirectory a
        = some ("Metadata/Artists/" ++ hashHead (sha1hash g) ++ "/"
            ++ hashTail (sha1hash g) ++ ".bundle"))
      ∧ (al.guid = some g → Album.metadataDirectory al
        = some ("Metadata/Albums/" ++ hashHead (sha1hash g) ++ "/"
            ++ hashTail (sha1hash g) ++ ".bundle"))
      ∧ (t.parentGuid = some g → Track.metadataDirectory t
        = some ("Metadata/Albums/" ++ hashHead (sha1hash g) ++ "/"
            ++ hashTail (sha1hash g) ++ ".bundle"))
      ∧ (al.guid = some g → t.parentGuid = some g →
          Track.metadataDirectory t = Album.metadataDirectory al)
      ∧ (∀ t2 : Obj, t.parentGuid = t2.parentGuid →
          Track.metadataDirectory t = Track.metadataDirectory t2) := by
  intro a al t g
  refine ⟨?_, ?_, ?_, ?_, ?_⟩
  · intro hg
    simp only [Artist.metadataDirectory, hg, Option.map_some']
    congr 1
  · intro hg
    simp only [Album.metadataDirectory, hg, Option.map_some']
    congr 1
  · intro hg
    simp only [Track.metadataDirectory, hg, Option.map_some']
    congr 1
  · intro hg1 hg2
    simp only [Track.metadataDirectory, Album.metadataDirectory, hg1, hg2]
  · intro t2 h
    simp only [Track.metadataDirectory, h]

/-- C3 witness: a concrete artist guid and a concrete track whose `parentGuid` matches
a concrete album's `guid`. -/
theorem c3_metadataDirectory_kind_witness :
    Artist.metadataDirectory { guid := some "plex://artist/5d07bcb0403c64029053ac4c" }
        = some ("Metadata/Artists/"
            ++ hashHead (sha1hash "plex://artist/5d07bcb0403c64029053ac4c") ++ "/"
            ++ hashTail (sha1hash "plex://artist/5d07bcb0403c64029053ac4c") ++ ".bundle")
      ∧ Track.metadataDirectory { parentGuid := some "plex://album/5d07cd8e403c640290f180f9" }
        = Album.metadataDirectory { guid := some "plex://album/5d07cd8e403c640290f180f9" } := by
  constructor
  · exact (c3_metadataDirectory_kind { guid := some "plex://artist/5d07bcb0403c64029053ac4c" }
      {} {} "plex://artist/5d07bcb0403c64029053ac4c").1 rfl
  · exact (c3_metadataDirectory_kind {}
      { guid := some "plex://album/5d07cd8e403c640290f180f9" }
      { parentGuid := some "plex://album/5d07cd8e403c640290f180f9" }
      "plex://album/5d07cd8e403c640290f180f9").2.2.2.1 rfl rfl

/-- C4, counterexample: the claimed path reuses the guid's 24-character id verbatim,
but the content hash of the guid is a 40-character SHA-1 digest, so the bundle path
differs from the claimed one. -/
theorem c4_track_bundle_counterexample :
    Track.metadataDirectory { parentGuid := some "plex://album/5d07cd8e403c640290f180f9" }
      ≠ some "Metadata/Albums/5/d07cd8e403c640290f180f9.bundle" := by decide

/-- C4, amended: for a track with `parentGuid = "plex://album/5d07cd8e403c640290f180f9"`
the bundle path is built from the SHA-1 digest `7560a4df…cc28` of that guid — the first
digest character is the single-character subdirectory. -/
theorem c4_track_bundle_path :
    Track.metadataDirectory { parentGuid := some "plex://album/5d07cd8e403c640290f180f9" }
      = some "Metadata/Albums/7/560a4df7221136983c5fd68f4cebf7a4874cc28.bundle" := by decide

/-- C5: `sonicallySimilar` fetches `<key>/nearest` with `limit` and `maxDistance`
present in the query string only when supplied, in that order; with both omitted no
query string is appended, and `limit=50, maxDistance=0.25` yields
`?limit=50&maxDistance=0.25`. -/
theorem c5_sonicallySimilar_query :
    ∀ (o : Obj) (n : Int) (f : String),
      sonicallySimilarPath o none none = o.key ++ "/nearest"
      ∧ sonicallySimilarPath o (some n) none
        = o.key ++ "/nearest" ++ "?limit=" ++ toString n
      ∧ sonicallySimilarPath o none (some f)
        = o.key ++ "/nearest" ++ "?maxDistance=" ++ f
      ∧ sonicallySimilarPath o (some n) (some f)
        = o.key ++ "/nearest" ++ "?limit=" ++ toString n ++ "&maxDistance=" ++ f
      ∧ sonicallySimilarPath o (some 50) (some "0.25")
        = o.key ++ "/nearest?limit=50&maxDistance=0.25" := by
  intro o n f
  refine ⟨?_, ?_, ?_, ?_, ?_⟩
  · show o.key ++ "/nearest" ++ joinArgs [] = o.key ++ "/nearest"
    rw [show joinArgs [] = "" from rfl, String.append_empty]
  · show o.key ++ "/nearest" ++ joinArgs [("limit", toString n)]
        = o.key ++ "/nearest" ++ "?limit=" ++ toString n
    rw [joinArgs_limit]
    simp only [String.append_assoc]
  · show o.key ++ "/nearest" ++ joinArgs [("maxDistance", f)]
        = o.key ++ "/nearest" ++ "?maxDistance=" ++ f
    rw [joinArgs_maxDistance]
    simp only [String.append_assoc]
  · show o.key ++ "/nearest" ++ joinArgs [("limit", toString n), ("maxDistance", f)]
        = o.key ++ "/nearest" ++ "?limit=" ++ toString n ++ "&maxDistance=" ++ f
    rw [joinArgs_limit_maxDistance]
    simp only [String.append_assoc]
  · show o.key ++ "/nearest"
        ++ joinArgs [("limit", toString (50 : Int)), ("maxDistance", "0.25")]
        = o.key ++ "/nearest?limit=50&maxDistance=0.25"
    rw [String.append_assoc]
    exact congrArg (fun s => o.key ++ s) (by decide)

/-- C6: `popularTracks` issues one track-scoped search that excludes albums with
subformat Compilation or Live, scopes to this artist's `ratingKey`, groups by title,
requires `ratingCount > 0`, sorts by `ratingCount` descending, and caps at 100. -/
theorem c6_popularTracks_request :
    ∀ (o : Obj),
      (Artist.popularTracks o).libtype = "track"
      ∧ (Artist.popularTracks o).filters
          = [("album.subformat!", .str "Compilation,Live"),
             ("artist.id", FilterVal.ofOptInt o.ratingKey),
             ("group", .str "title"),
             ("ratingCount>>", .int 0)]
      ∧ (∀ n, o.ratingKey = some n →
          ("artist.id", FilterVal.int n) ∈ (Artist.popularTracks o).filters)
      ∧ (Artist.popularTracks o).sort = some "ratingCount:desc"
      ∧ (Artist.popularTracks o).limit = some 100 := by
  intro o
  refine ⟨rfl, rfl, ?_, rfl, rfl⟩
  intro n h
  simp [Artist.popularTracks, FilterVal.ofOptInt, h]

/-- C6 witness: a loaded artist with `ratingKey = 5` searches with filter
`artist.id = 5`. -/
theorem c6_popularTracks_request_witness :
    ("artist.id", FilterVal.int 5) ∈ (Artist.popularTracks { ratingKey := some 5 }).filters :=
  (c6_popularTracks_request { ratingKey := some 5 }).2.2.1 5 rfl

/-- C7: `titleSort` equals the fragment's `titleSort` attribute when present and
`title` otherwise, so it is present whenever `title` is; the subclass loaders leave it
as the shared loader set it. -/
theorem c7_titleSort_default :
    ∀ (d : Attrib) (o : Obj) (v : String),
      (d "titleSort" = some v → (Audio.loadData d o).titleSort = some v)
      ∧ (d "titleSort" = none →
          (Audio.loadData d o).titleSort = (Audio.loadData d o).title)
      ∧ ((Audio.loadData d o).title.isSome → (Audio.loadData d o).titleSort.isSome)
      ∧ (Artist.loadData d o).titleSort = (Audio.loadData d o).titleSort
      ∧ (Album.loadData d o).titleSort = (Audio.loadData d o).titleSort
      ∧ (Track.loadData d o).titleSort = (Audio.loadData d o).titleSort := by
  intro d o v
  refine ⟨?_, ?_, ?_, rfl, rfl, rfl⟩
  · intro h
    simp [Audio.loadData, h]
  · intro h
    simp [Audio.loadData, h]
  · intro h
    simp only [Audio.loadData] at h ⊢
    cases hts : d "titleSort" with
    | some w => simp
    | none => simpa [hts] using h

/-- C7 witness: with a `titleSort` attribute the value is taken; without it the title
is taken. -/
theorem c7_titleSort_default_witness :
    (Audio.loadData
        (fun a => if a = "titleSort" then some "Mraz, Jason"
          else if a = "title" then some "Jason Mraz" else none) {}).titleSort
      = some "Mraz, Jason"
    ∧ (Audio.loadData (fun a => if a = "title" then some "Jason Mraz" else none)
        {}).titleSort
      = (Audio.loadData (fun a => if a = "title" then some "Jason Mraz" else none)
        {}).title := by
  constructor
  · exact (c7_titleSort_default
      (fun a => if a = "titleSort" then some "Mraz, Jason"
        else if a = "title" then some "Jason Mraz" else none) {} "Mraz, Jason").1
      (by decide)
  · exact (c7_titleSort_default
      (fun a => if a = "title" then some "Jason Mraz" else none) {} "").2.1 (by decide)

/-- C8: loaders compose by layered delegation — `Track._loadData` is the shared Audio
loader, then the Playable loader, then the Track-specific fields; the session/history
variants run Track's loader first and merge their capability fields on top, each
field's final value being the one written by the most specific layer that writes it. -/
theorem c8_loader_layering :
    ∀ (d : Attrib) (o : Obj),
      Track.loadData d o = Track.ownFields d (Playable.loadData d (Audio.loadData d o))
      ∧ TrackSession.loadData d o = PlexSession.loadData d (Track.loadData d o)
      ∧ TrackHistory.loadData d o = PlexHistory.loadData d (Track.loadData d o)
      ∧ (TrackSession.loadData d o).sessionKey = castInt (d "sessionKey")
      ∧ (TrackSession.loadData d o).title = d "title"
      ∧ (TrackSession.loadData d o).viewOffset = castIntZero (d "viewOffset")
      ∧ (TrackHistory.loadData d o).viewedAt = toDatetime (d "viewedAt")
      ∧ (Track.loadData d o).playQueueItemID = castInt (d "playQueueItemID")
      ∧ (Track.loadData d o).parentGuid = d "parentGuid" := by
  intro d o
  exact ⟨rfl, rfl, rfl, rfl, rfl, rfl, rfl, rfl, rfl⟩

/-- C9: `Album.track` dispatches on the runtime type of `title` — an integer `title`
is the positional index, filtered with a case-insensitive match of the album's own
title; the `BadRequest` error occurs exactly when both `title` and `track` are
absent, so an integer `title` never raises it. -/
theorem c9_album_track_dispatch :
    ∀ (o : Obj) (title : Option TitleArg) (track : Option Int),
      ((∃ e, Album.track o title track = .error e) ↔ title = none ∧ track = none)
      ∧ (∀ n, title = some (.int n) →
          Album.track o title track = .ok (.byAlbumIndex (o.key ++ "/children") o.title n))
      ∧ (∀ s, title = some (.str s) →
          Album.track o title track = .ok (.byTitle (o.key ++ "/children") s))
      ∧ Album.get o title track = Album.track o title track := by
  intro o title track
  refine ⟨?_, ?_, ?_, rfl⟩
  · rcases title with _ | t
    · cases track <;> simp [Album.track]
    · cases t <;> cases track <;> simp [Album.track]
  · intro n h
    subst h
    cases track <;> rfl
  · intro s h
    subst h
    cases track <;> rfl

/-- C9 witness: an integer `title` of 3 with no `track` argument performs the indexed
lookup against the album's own title. -/
theorem c9_album_track_dispatch_witness :
    Album.track { key := "/library/metadata/2", title := some "We Sing" }
        (some (.int 3)) none
      = .ok (.byAlbumIndex "/library/metadata/2/children" (some "We Sing") 3) := by
  rw [(c9_album_track_dispatch { key := "/library/metadata/2", title := some "We Sing" }
    (some (.int 3)) none).2.1 3 rfl]
  rfl

/-- C10: a missing `viewCount` loads as 0 and a missing `viewOffset` loads as 0, while
missing `ratingCount`, `skipCount` and `duration` load as absent. -/
theorem c10_viewCount_viewOffset_defaults :
    ∀ (d : Attrib) (o : Obj),
      (d "viewCount" = none → (Audio.loadData d o).viewCount = some 0)
      ∧ (d "viewOffset" = none → (Track.loadData d o).viewOffset = some 0)
      ∧ (d "ratingCount" = none → (Track.loadData d o).ratingCount = none)
      ∧ (d "skipCount" = none → (Track.loadData d o).skipCount = none)
      ∧ (d "duration" = none → (Track.loadData d o).duration = none) := by
  intro d o
  refine ⟨?_, ?_, ?_, ?_, ?_⟩ <;> intro h <;>
    simp [Audio.loadData, Track.loadData, Track.ownFields, Playable.loadData,
      castIntZero, castInt, h]

/-- C10 witness: a fragment with no numeric attributes at all. -/
theorem c10_viewCount_viewOffset_defaults_witness :
    (Audio.loadData (fun _ => none) {}).viewCount = some 0
    ∧ (Track.loadData (fun _ => none) {}).viewOffset = some 0
    ∧ (Track.loadData (fun _ => none) {}).ratingCount = none := by
  refine ⟨?_, ?_, ?_⟩
  · exact (c10_viewCount_viewOffset_defaults (fun _ => none) {}).1 rfl
  · exact (c10_viewCount_viewOffset_defaults (fun _ => none) {}).2.1 rfl
  · exact (c10_viewCount_viewOffset_defaults (fun _ => none) {}).2.2.1 rfl

end PlexAudio
